import Mathlib

/-!
Verification development for the terra-land-qualifier backend.

This file gives a shallow embedding of the conversation-qualification core:
* the extraction merger of `QualifierAgent._llm_extract_node`
  (src/backend/agents/qualifier_agent.py, lines 170-177),
* the geographic validator `GeographicValidator.validate_bairro` /
  `validate_location` (src/backend/guardrails/geographic_validator.py),
  including the fuzzywuzzy `token_sort_ratio` scorer it calls,
* the numeric normalizer `DataValidator.extract_numeric_value`
  (src/backend/guardrails/data_validator.py, lines 136-196),
* the per-invocation LangGraph pass of `QualifierAgent`
  (conversation -> extract -> validate -> route -> output).

Python values flowing through the extraction dictionary are modelled by
`Value`; Python truthiness by `truthy`; Python exceptions by `Except`.
Python floats are modelled as rationals (all numerals in the claims are
exactly representable, so no rounding behaviour of binary doubles is
load-bearing).
-/

namespace Terra

instance exceptDecEq {ε α : Type} [DecidableEq ε] [DecidableEq α] :
    DecidableEq (Except ε α)
  | .error e1, .error e2 =>
      match decEq e1 e2 with
      | isTrue h => isTrue (h ▸ rfl)
      | isFalse h => isFalse (fun hh => h (Except.error.inj hh))
  | .error _, .ok _ => isFalse (fun hh => Except.noConfusion hh)
  | .ok _, .error _ => isFalse (fun hh => Except.noConfusion hh)
  | .ok a1, .ok a2 =>
      match decEq a1 a2 with
      | isTrue h => isTrue (h ▸ rfl)
      | isFalse h => isFalse (fun hh => h (Except.ok.inj hh))

/-- A JSON-ish Python value as it appears in the extraction dictionary:
a number (Python int/float, modelled as a rational), a string, or a bool. -/
inductive Value where
  | num (q : ℚ)
  | str (s : String)
  | bool (b : Bool)
deriving DecidableEq, Repr

/-- Python truthiness of a `Value`: `0`, `0.0`, `""` and `False` are falsy. -/
def truthy : Value → Bool
  | .num q => q != 0
  | .str s => !s.isEmpty
  | .bool b => b

/-- Truthiness of `state.get(field)`: an absent key is falsy (`None`). -/
def truthyOpt : Option Value → Bool
  | none => false
  | some v => truthy v

/-- Point update of a string-keyed map, modelling `state[field] = value`. -/
def updateFn (f : String → Option Value) (k : String) (v : Value) :
    String → Option Value :=
  fun k1 => if k1 = k then some v else f k1

/-- One iteration of the merge loop in `_llm_extract_node`:
`if value is not None: if not state.get(field): state[field] = value`. -/
def mergeOne (f : String → Option Value) (kv : String × Option Value) :
    String → Option Value :=
  match kv.2 with
  | none => f
  | some v => if truthyOpt (f kv.1) then f else updateFn f kv.1 v

/-- The full merge loop of `_llm_extract_node` over the parsed extraction
dictionary, in iteration order (`for field, value in data.items()`). -/
def mergeFields (f : String → Option Value) :
    List (String × Option Value) → (String → Option Value)
  | [] => f
  | kv :: rest => mergeFields (mergeOne f kv) rest

/-- The empty fields map: a fresh conversation state has no extracted data. -/
def emptyFields : String → Option Value := fun _ => none

/-- The field keys the extraction prompt asks for
(src/backend/agents/qualifier_agent.py, lines 40-47).  The spec counts
them as "six" attributes because `bairro`/`cidade` are one location
attribute; the keys themselves are these seven. -/
def knownFieldKeys : List String :=
  ["owner_type", "bairro", "cidade", "land_size_m2", "asking_price",
   "legal_status", "differentials"]

theorem mergeOne_apply_ne (f : String → Option Value)
    (kv : String × Option Value) (k : String) (h : kv.1 ≠ k) :
    mergeOne f kv k = f k := by
  unfold mergeOne
  cases kv.2 with
  | none => rfl
  | some v =>
      by_cases ht : truthyOpt (f kv.1)
      · simp [ht]
      · have hk : ¬ k = kv.1 := fun hk => h hk.symm
        simp [ht, updateFn, hk]

theorem mergeOne_keeps_truthy (f : String → Option Value)
    (kv : String × Option Value) (k : String) (v : Value)
    (hv : f k = some v) (ht : truthy v = true) :
    mergeOne f kv k = some v := by
  unfold mergeOne
  cases kv.2 with
  | none => exact hv
  | some w =>
      by_cases hc : truthyOpt (f kv.1)
      · simp [hc, hv]
      · by_cases hk : k = kv.1
        · subst hk
          rw [hv] at hc
          simp [truthyOpt, ht] at hc
        · simp [hc, updateFn, hk, hv]

/-- A truthy entry survives any further merge: the already-set field is
never overwritten by a later extraction. -/
theorem mergeFields_keeps_truthy (e : List (String × Option Value))
    (f : String → Option Value) (k : String) (v : Value)
    (hv : f k = some v) (ht : truthy v = true) :
    mergeFields f e k = some v := by
  induction e generalizing f with
  | nil => exact hv
  | cons kv rest ih =>
      exact ih _ (mergeOne_keeps_truthy f kv k v hv ht)

/-- Keys that never occur in the extraction result are left untouched. -/
theorem mergeFields_of_not_mem (e : List (String × Option Value))
    (f : String → Option Value) (k : String)
    (h : ∀ kv ∈ e, kv.1 ≠ k) :
    mergeFields f e k = f k := by
  induction e generalizing f with
  | nil => rfl
  | cons kv rest ih =>
      rw [mergeFields, ih _ (fun kv2 h2 => h kv2 (List.mem_cons_of_mem _ h2)),
        mergeOne_apply_ne f kv k (h kv (List.mem_cons_self _ _))]

/-! ### Python string primitives used by the validators -/

/-- Python whitespace for `str.strip` / `\s` / `str.split`. -/
def isWsPy (c : Char) : Bool :=
  c = ' ' || c = '\t' || c = '\n' || c = '\r' || c.toNat = 11 || c.toNat = 12

/-- Python `str.lower` on one character, for the ASCII and Latin-1 ranges
(the only ranges occurring in this repository's string data). -/
def pyLowerChar (c : Char) : Char :=
  if 65 ≤ c.toNat ∧ c.toNat ≤ 90 then Char.ofNat (c.toNat + 32)
  else if 192 ≤ c.toNat ∧ c.toNat ≤ 222 ∧ c.toNat ≠ 215 then
    Char.ofNat (c.toNat + 32)
  else c

def pyLowerL (l : List Char) : List Char := l.map pyLowerChar

def pyLowerS (s : String) : String := ⟨pyLowerL s.data⟩

/-- Python `str.strip()`. -/
def pyStripL (l : List Char) : List Char :=
  ((l.dropWhile isWsPy).reverse.dropWhile isWsPy).reverse

def pyStripS (s : String) : String := ⟨pyStripL s.data⟩

/-- Does the second list start with the first one? -/
def startsWithL : List Char → List Char → Bool
  | [], _ => true
  | _ :: _, [] => false
  | p :: ps, t :: ts => p = t && startsWithL ps ts

/-- Python substring containment (`pat in text`). -/
def containsSubL (pat : List Char) : List Char → Bool
  | [] => pat.isEmpty
  | c :: cs => startsWithL pat (c :: cs) || containsSubL pat cs

def strIn (pat text : String) : Bool := containsSubL pat.data text.data

/-- Python `str.replace(pat, repl)` (all occurrences, left to right),
fuelled by the text length; `pat` is non-empty at every call site. -/
def replaceAux (pat repl : List Char) : Nat → List Char → List Char
  | 0, l => l
  | _ + 1, [] => []
  | fuel + 1, c :: cs =>
      if startsWithL pat (c :: cs) then
        repl ++ replaceAux pat repl fuel (List.drop (pat.length - 1) cs)
      else c :: replaceAux pat repl fuel cs

def replaceL (pat repl l : List Char) : List Char :=
  replaceAux pat repl l.length l

/-! ### fuzzywuzzy `token_sort_ratio`

`fuzz.token_sort_ratio(s1, s2)` (force_ascii=True, full_process=True):
strip non-ASCII bytes 128-255 (`utils.asciidammit`), replace non-word
characters by spaces, lowercase, strip, split into tokens, sort them,
join with single spaces, and score the two joined strings with
`fuzz.ratio`.  With the python-Levenshtein backend `fuzz.ratio` is
`round(100 * 2*LCS(a,b) / (len a + len b))`. -/

/-- Models `utils.asciidammit`: drop every character with code point 128-255. -/
def asciiStrip (l : List Char) : List Char :=
  l.filter (fun c => c.toNat < 128 || c.toNat > 255)

/-- Python regex `\w` (unicode), restricted to the ASCII and Latin-1
letters that occur in this repository's data. -/
def isWordCharPy (c : Char) : Bool :=
  c.isAlpha || c.isDigit || c = '_' ||
    (192 ≤ c.toNat && c.toNat ≤ 255 && c.toNat ≠ 215 && c.toNat ≠ 247)

/-- Models `utils.full_process(s, force_ascii=True)`. -/
def fullProcess (l : List Char) : List Char :=
  pyStripL (pyLowerL ((asciiStrip l).map
    (fun c => if isWordCharPy c then c else ' ')))

/-- Python `str.split()`: split on whitespace runs, no empty tokens. -/
def splitWsAux : List Char → List Char → List (List Char)
  | [], acc => if acc.isEmpty then [] else [acc.reverse]
  | c :: cs, acc =>
      if isWsPy c then
        if acc.isEmpty then splitWsAux cs [] else acc.reverse :: splitWsAux cs []
      else splitWsAux cs (c :: acc)

def splitWs (l : List Char) : List (List Char) := splitWsAux l []

/-- Lexicographic comparison of tokens by code point (Python `sorted`). -/
def lexLe : List Char → List Char → Bool
  | [], _ => true
  | _ :: _, [] => false
  | a :: as1, b :: bs1 =>
      if a.toNat < b.toNat then true
      else if b.toNat < a.toNat then false
      else lexLe as1 bs1

def insertTok (x : List Char) : List (List Char) → List (List Char)
  | [] => [x]
  | y :: ys => if lexLe x y then x :: y :: ys else y :: insertTok x ys

/-- Stable ascending sort of the token list (Python `sorted`). -/
def sortToks : List (List Char) → List (List Char)
  | [] => []
  | x :: xs => insertTok x (sortToks xs)

def joinSp : List (List Char) → List Char
  | [] => []
  | [t] => t
  | t :: ts => t ++ ' ' :: joinSp ts

/-- Models `fuzz._process_and_sort(s, force_ascii=True)`. -/
def tokenSortKey (l : List Char) : List Char :=
  joinSp (sortToks (splitWs (fullProcess l)))

/-- One row update of the longest-common-subsequence table. -/
def lcsRowGo (x : Char) : List Char → Nat → List Nat → Nat → List Nat
  | [], _, _, _ => []
  | _ :: _, _, [], _ => []
  | y :: ys, diag, up :: ups, left =>
      let cur := if x = y then diag + 1 else Nat.max left up
      cur :: lcsRowGo x ys up ups cur

def lcsRows (ys : List Char) : List Char → List Nat → List Nat
  | [], row => row
  | x :: xs, row =>
      match row with
      | [] => []
      | r0 :: rest => lcsRows ys xs (0 :: lcsRowGo x ys r0 rest 0)

/-- Length of the longest common subsequence of two character lists. -/
def lcsLen (xs ys : List Char) : Nat :=
  (lcsRows ys xs (List.replicate (ys.length + 1) 0)).getLast?.getD 0

/-- Round-half-up division, modelling `utils.intr(100 * ...)`.  (CPython
rounds half to even, but no half case arises on the concrete strings this
file evaluates.) -/
def halfUpDiv (num den : Nat) : Nat :=
  if den = 0 then 0 else (2 * num + den) / (2 * den)

/-- Models `fuzz.ratio` on two already-processed strings (Levenshtein backend):
`round(100 * 2*LCS / (len a + len b))`, 0 when either side is empty. -/
def simScore (a b : List Char) : Nat :=
  if a.isEmpty || b.isEmpty then 0
  else halfUpDiv (200 * lcsLen a b) (a.length + b.length)

/-- Models `fuzz.token_sort_ratio(a, b)`. -/
def tokenSortScore (a b : List Char) : Nat :=
  simScore (tokenSortKey a) (tokenSortKey b)

/-- Models `process.extractOne(query, choices, scorer=fuzz.token_sort_ratio)`:
the first choice attaining the maximal score (Python `max` keeps the
first maximum). -/
def extractBestGo (q : List Char) : String × Nat → List String → String × Nat
  | best, [] => best
  | best, c :: cs =>
      let sc := tokenSortScore q c.data
      extractBestGo q (if best.2 < sc then (c, sc) else best) cs

def extractBest (q : List Char) : List String → Option (String × Nat)
  | [] => none
  | c :: cs => some (extractBestGo q (c, tokenSortScore q c.data) cs)

/-! ### GeographicValidator (src/backend/guardrails/geographic_validator.py) -/

/-- The allow-list `config.ALLOWED_BAIRROS` (src/backend/config.py, lines 59-64). -/
def ALLOWED_BAIRROS : List String :=
  ["Centro", "Itacorubi", "Campeche", "Jurerê Internacional"]

/-- The target city `config.CIDADE_ALVO`. -/
def CIDADE_ALVO : String := "Florianópolis"

/-- Default `similarity_threshold` of `GeographicValidator`. -/
def similarityThreshold : Nat := 80

/-- Models `GeographicValidator.validate_bairro`: exact case-insensitive match
against the allow-list first, then token-sort-ratio fuzzy matching with
the 80 threshold. -/
def validateBairro (bairro : String) : Bool × Option String :=
  if bairro.isEmpty then (false, none)
  else
    let bn := pyStripS bairro
    match ALLOWED_BAIRROS.find? (fun a => pyLowerS bn == pyLowerS a) with
    | some a => (true, some a)
    | none =>
        match extractBest bn.data ALLOWED_BAIRROS with
        | some (c, sc) =>
            if similarityThreshold ≤ sc then (true, some c) else (false, none)
        | none => (false, none)

/-- Models `GeographicValidator.validate_cidade`. -/
def validateCidade (c : String) : Bool :=
  pyLowerS (pyStripS c) == pyLowerS CIDADE_ALVO

/-- Models `GeographicValidator.validate_location` (the third returned component,
a log message, is not modelled: no claim mentions it). -/
def validateLocation (bairro : String) (cidade : Option String) :
    Bool × Option String :=
  let cidOk := match cidade with
    | none => true
    | some c => if c.isEmpty then true else validateCidade c
  if cidOk then validateBairro bairro else (false, none)


/-! ### DataValidator.extract_numeric_value
(src/backend/guardrails/data_validator.py, lines 136-196)

The two unit branches search `cleaned.lower()` with the regexes
`([\d.,]+)\s*milhõ` and `([\d.,]+)\s*mil`; the float conversions inside
them are NOT wrapped in try/except, so a `ValueError` escapes (modelled
as `Except.error`).  The final branch wraps its conversion in
try/except and returns `None` on failure. -/

def isNumChar (c : Char) : Bool := c.isDigit || c = '.' || c = ','

/-- Models `re.search(r'([\d.,]+)\s*LIT', text)`: the group of the leftmost
match.  Giving back characters from the greedy `[\d.,]+` group can never
help, because the remainder would then start with a numeral character,
which matches neither `\s` nor the literal's first character `m`; so the
group is always the full numeral run at the match position, and on
failure the scan resumes one character further right, as CPython does. -/
def searchNumLit (lit : List Char) : List Char → Option (List Char)
  | [] => none
  | c :: cs =>
      if isNumChar c then
        if startsWithL lit ((List.dropWhile isNumChar (c :: cs)).dropWhile isWsPy)
        then some (List.takeWhile isNumChar (c :: cs))
        else searchNumLit lit cs
      else searchNumLit lit cs

/-- Models `re.search(r'([\d.,]+)', text)`: the leftmost maximal numeral run. -/
def searchNum : List Char → Option (List Char)
  | [] => none
  | c :: cs =>
      if isNumChar c then some (List.takeWhile isNumChar (c :: cs))
      else searchNum cs

def digitsToNat (l : List Char) : Nat :=
  l.foldl (fun n c => 10 * n + (c.toNat - 48)) 0

/-- Python `float()` on the strings reachable here (digits and dots only
after the comma/dot replacements): defined iff there is at least one
digit and at most one dot.  Returns numerator and denominator; the value
is exact (Python's binary floats are not load-bearing for any claim). -/
def pyFloatParts (l : List Char) : Option (Nat × Nat) :=
  if l.all (fun c => c.isDigit || c = '.') && l.count '.' ≤ 1
      && l.any Char.isDigit then
    let intP := l.takeWhile (fun c => c ≠ '.')
    let frac := (l.dropWhile (fun c => c ≠ '.')).drop 1
    some (digitsToNat intP * 10 ^ frac.length + digitsToNat frac, 10 ^ frac.length)
  else none

/-- Python `float()` as a rational. -/
def pyFloat (l : List Char) : Option ℚ :=
  (pyFloatParts l).map (fun p => mkRat p.1 p.2)

/-- Models `float(run.replace(".", "").replace(",", ".")) * scale` of the unit
branches. -/
def numFromRunScaled (run : List Char) (scale : Nat) : Option ℚ :=
  (pyFloatParts (replaceL [','] ['.'] (replaceL ['.'] [] run))).map
    (fun p => mkRat (p.1 * scale) p.2)

/-- Scanning the reversed numeral run: `True` iff the last separator of
the run is a comma, i.e. `rindex(',') > rindex('.')`. -/
def commaLastRev : List Char → Bool
  | [] => false
  | c :: cs => if c = ',' then true else if c = '.' then false else commaLastRev cs

/-- Models `DataValidator.extract_numeric_value`.  `Except.error` models an
escaping Python exception; `.ok none` models returning `None`. -/
def extractNumericValue (text : String) : Except String (Option ℚ) :=
  let cleaned := pyStripL (replaceL "m²".data [] (replaceL "R$".data [] text.data))
  let low := pyLowerL cleaned
  let mStep : Option (Except String (Option ℚ)) :=
    if containsSubL "milhão".data low || containsSubL "milhões".data low then
      match searchNumLit "milhõ".data low with
      | some run =>
          match numFromRunScaled run 1000000 with
          | some q => some (.ok (some q))
          | none => some (.error "ValueError")
      | none => none
    else none
  match mStep with
  | some r => r
  | none =>
      let kStep : Option (Except String (Option ℚ)) :=
        if containsSubL "mil".data low then
          match searchNumLit "mil".data low with
          | some run =>
              match numFromRunScaled run 1000 with
              | some q => some (.ok (some q))
              | none => some (.error "ValueError")
          | none => none
        else none
      match kStep with
      | some r => r
      | none =>
          match searchNum cleaned with
          | some run =>
              let ns :=
                if run.contains ',' && run.contains '.' then
                  if commaLastRev run.reverse then
                    replaceL [','] ['.'] (replaceL ['.'] [] run)
                  else replaceL [','] [] run
                else if run.contains ',' then replaceL [','] ['.'] run
                else run
              .ok (pyFloat ns)
          | none => .ok none


/-! ### The QualifierAgent graph (src/backend/agents/qualifier_agent.py)

One invocation is one pass conversation -> extract -> validate -> route
-> (output | wait).  The two language-model calls are oracles: the
generated reply and the parsed extraction dictionary are parameters of
the pass.  The LangGraph state is a Python dict; `messages` (a list) and
`turn_count` (an int) are kept as structure fields, every other key
lives in `dict`. -/

/-- One transcript turn (`HumanMessage` / `AIMessage`). -/
inductive Message where
  | user (content : String)
  | agent (content : String)
deriving DecidableEq, Repr

/-- The LangGraph `QualificationState` (src/backend/agents/state.py). -/
structure QState where
  messages : List Message
  turn_count : Nat
  dict : String → Option Value

/-- Modelled from the spec: `models/schemas.py` is not under src/.
Member values "corretor" / "proprietario" per agents/state.py line 31,
the extraction prompt, and the default literal in qualifier_agent.py. -/
inductive OwnerType where
  | corretor
  | proprietario
deriving DecidableEq, Repr

/-- Models `OwnerType(value)`: the enum constructor, `none` models the
`ValueError` Python raises on any other value. -/
def ownerTypeOf (s : String) : Option OwnerType :=
  if s = "corretor" then some .corretor
  else if s = "proprietario" then some .proprietario
  else none

def ownerTypeStr : OwnerType → String
  | .corretor => "corretor"
  | .proprietario => "proprietario"

/-- Modelled from the spec: the `NextStep` enum of models/schemas.py
(absent from src/); serialized values per spec section 6. -/
inductive NextStep where
  | agendar_reuniao
  | disqualified
deriving DecidableEq, Repr

/-- The string `NextStep.value` as stored into `state["next_step"]`. -/
def nextStepStr : NextStep → String
  | .agendar_reuniao => "schedule_meeting"
  | .disqualified => "disqualified"

/-- Modelled from the spec: the `LeadQualification` record of
models/schemas.py (absent from src/); fields per spec section 6, with
the nested `location` inlined as `bairro`/`cidade`. -/
structure LeadQualification where
  lead_qualified : Value
  owner_type : OwnerType
  bairro : Value
  cidade : Value
  land_size_m2 : Value
  asking_price : Value
  legal_status : String
  obs : Value
  next_step : NextStep
deriving DecidableEq, Repr

/-- Python `x or default` on an optional dictionary value. -/
def pyOr (o : Option Value) (d : Value) : Value :=
  match o with
  | some v => if truthy v then v else d
  | none => d

/-- Python `x == False` on an optional dictionary value (`0 == False`
and `0.0 == False` hold in Python; `None == False` does not). -/
def pyEqFalse : Option Value → Bool
  | some (.bool b) => !b
  | some (.num q) => q == 0
  | some (.str _) => false
  | none => false

/-- Models `_conversation_node`: append the generated reply, bump the counter. -/
def conversationNode (reply : String) (s : QState) : QState :=
  { s with messages := s.messages ++ [Message.agent reply],
           turn_count := s.turn_count + 1 }

/-- The merge loop of `_llm_extract_node` acting on the full LangGraph
state dictionary.  The `messages` and `turn_count` keys hold the
transcript and the turn counter; when this node runs they are always
truthy (the conversation node has just appended a reply and bumped the
counter to at least 1), so CPython's `if not state.get(field)` guard
skips them; the model skips them unconditionally. -/
def mergeStateData (f : String → Option Value) :
    List (String × Option Value) → (String → Option Value)
  | [] => f
  | kv :: rest =>
      mergeStateData
        (if kv.1 = "messages" || kv.1 = "turn_count" then f else mergeOne f kv)
        rest

/-- Models `_llm_extract_node` with the parsed extraction dictionary as oracle
(`[]` also covers the unparseable-JSON and LLM-failure paths, which
return the state unchanged). -/
def extractNode (data : List (String × Option Value)) (s : QState) : QState :=
  { s with dict := mergeStateData s.dict data }

/-- Writes performed by `_validate_location_node` after
`validate_location` returned `r`. -/
def applyValidation (s : QState) (r : Bool × Option String) : QState :=
  let d1 := updateFn (updateFn s.dict "location_validated" (Value.bool true))
      "is_qualified" (Value.bool r.1)
  { s with dict := match r.2 with
      | some m => updateFn d1 "bairro" (Value.str m)
      | none => d1 }

/-- Models `_validate_location_node`.  A non-string truthy `bairro` or `cidade`
would make Python call `.strip()`/`.lower()` on it and raise; that is
the `Except.error` case. -/
def validateNode (s : QState) : Except String QState :=
  match s.dict "bairro" with
  | none => .ok s
  | some v =>
      if truthy v then
        match v with
        | .str b =>
            match s.dict "cidade" with
            | none => .ok (applyValidation s (validateLocation b none))
            | some w =>
                if truthy w then
                  match w with
                  | .str c => .ok (applyValidation s (validateLocation b (some c)))
                  | _ => .error "AttributeError"
                else .ok (applyValidation s (validateLocation b none))
        | _ => .error "AttributeError"
      else .ok s

/-- The completeness check `_has_all_required_data`: all six checked keys
must be truthy (note: it does include `differentials`). -/
def hasAllRequiredData (s : QState) : Bool :=
  ["owner_type", "bairro", "land_size_m2", "asking_price", "legal_status",
   "differentials"].all (fun k => truthyOpt (s.dict k))

inductive RouteDecision where
  | output
  | disqualified
  | awaitTurn
deriving DecidableEq, Repr

/-- Models `_route_after_validation`: disqualify when the location was validated
and `is_qualified == False`; otherwise finalize iff all data is present. -/
def routeAfterValidation (s : QState) : RouteDecision :=
  if truthyOpt (s.dict "location_validated") && pyEqFalse (s.dict "is_qualified")
  then .disqualified
  else if hasAllRequiredData s then .output
  else .awaitTurn

/-- Keyword families of the `legal_status` normalization in
`_generate_output_node` (lines 221 and 224). -/
def affirmKeywords : List String := ["sim", "com escritura", "possui", "regularizado"]

def negKeywords : List String := ["não", "nao", "sem escritura"]

def hasKeyword (kws : List String) (s : String) : Bool :=
  kws.any (fun w => strIn w (pyLowerS s))

/-- The `legal_status` normalization of `_generate_output_node`
(lines 218-229), on the string read with default `""`. -/
def normalizeLegalStatus (raw : String) : String :=
  if raw.isEmpty then "Não informado"
  else if hasKeyword affirmKeywords raw then "Sim, possui escritura pública"
  else if hasKeyword negKeywords raw then "Não possui escritura"
  else raw

def valueText : Value → String
  | .str s => s
  | .num r => toString r
  | .bool b => toString b

/-- Flat text rendering of the final record, standing in for
`model_dump_json` (no claim depends on the serialized format). -/
def renderRecord (q : LeadQualification) : String :=
  "lead_qualified=" ++ valueText q.lead_qualified ++
  "; owner_type=" ++ ownerTypeStr q.owner_type ++
  "; bairro=" ++ valueText q.bairro ++
  "; cidade=" ++ valueText q.cidade ++
  "; land_size_m2=" ++ valueText q.land_size_m2 ++
  "; asking_price=" ++ valueText q.asking_price ++
  "; legal_status=" ++ q.legal_status ++
  "; obs=" ++ valueText q.obs ++
  "; next_step=" ++ nextStepStr q.next_step

/-- Models `_generate_output_node` (lines 203-259): normalize `legal_status`,
apply the output-boundary fallbacks, build the record, append its
rendering to the transcript and mark the state complete.  The state's
own data fields are not touched. -/
def generateOutputNode (s : QState) : Except String (QState × LeadQualification) :=
  let isQ : Value := (s.dict "is_qualified").getD (Value.bool false)
  let legalStep : Except String String :=
    match s.dict "legal_status" with
    | some (.str t) => .ok (normalizeLegalStatus t)
    | some w => if truthy w then .error "AttributeError" else .ok "Não informado"
    | none => .ok (normalizeLegalStatus "")
  match legalStep with
  | .error e => .error e
  | .ok legal =>
      let ownerStep : Except String OwnerType :=
        match s.dict "owner_type" with
        | none => .ok OwnerType.corretor
        | some (.str t) =>
            match ownerTypeOf t with
            | some o => .ok o
            | none => .error "ValueError"
        | some _ => .error "ValueError"
      match ownerStep with
      | .error e => .error e
      | .ok owner =>
          let q : LeadQualification := {
            lead_qualified := isQ
            owner_type := owner
            bairro := pyOr (s.dict "bairro") (Value.str "Não especificado")
            cidade := pyOr (s.dict "cidade") (Value.str "Florianópolis")
            land_size_m2 := pyOr (s.dict "land_size_m2") (Value.num (mkRat 1 10))
            asking_price := pyOr (s.dict "asking_price") (Value.num (mkRat 1 10))
            legal_status := legal
            obs := pyOr (s.dict "differentials") (Value.str "Nenhuma observação adicional")
            next_step := if truthy isQ then NextStep.agendar_reuniao
                         else NextStep.disqualified }
          .ok ({ s with
                 messages := s.messages ++ [Message.agent (renderRecord q)],
                 dict := updateFn
                   (updateFn s.dict "qualification_complete" (Value.bool true))
                   "next_step" (Value.str (nextStepStr q.next_step)) }, q)

/-- One full graph invocation: conversation -> extract -> validate ->
route; the `output` and `disqualified` edges both lead to the output
node, `end` waits for the next external call.  Returns the final state
and the emitted record, if any. -/
def graphInvoke (reply : String) (data : List (String × Option Value))
    (s : QState) : Except String (QState × Option LeadQualification) :=
  match validateNode (extractNode data (conversationNode reply s)) with
  | .error e => .error e
  | .ok s3 =>
      match routeAfterValidation s3 with
      | .awaitTurn => .ok (s3, none)
      | _ =>
          match generateOutputNode s3 with
          | .error e => .error e
          | .ok (s4, r) => .ok (s4, some r)

/-- The status `QualifierAgent.run` reports to the caller
(lines 353-360): COMPLETE iff `qualification_complete` is truthy. -/
def statusOf (s : QState) : String :=
  if truthyOpt (s.dict "qualification_complete") then "complete" else "in_progress"


/-! ### Claim C1 — merge monotonicity / first-write-wins -/

theorem mergeFields_append (a b : List (String × Option Value))
    (f : String → Option Value) :
    mergeFields f (a ++ b) = mergeFields (mergeFields f a) b := by
  induction a generalizing f with
  | nil => rfl
  | cons kv rest ih => simpa [mergeFields] using ih (mergeOne f kv)

def zeroSizeE : List (String × Option Value) :=
  [("land_size_m2", some (Value.num 0))]

def laterSizeE : List (String × Option Value) :=
  [("land_size_m2", some (Value.num 450))]

/-- C1, counterexample: after `merge(S,E1)` the key `land_size_m2` holds
the non-null value 0, yet `merge(merge(S,E1),E2)` overwrites it with 450.
The guard in `_llm_extract_node` is Python truthiness
(`if not state.get(field)`), not a null check, so a non-null falsy value
(0, 0.0, "", False) is not protected. -/
theorem C1_counterexample :
    mergeFields emptyFields zeroSizeE "land_size_m2" = some (Value.num 0) ∧
    mergeFields (mergeFields emptyFields zeroSizeE) laterSizeE "land_size_m2"
      = some (Value.num 450) ∧
    Value.num 450 ≠ Value.num 0 := by
  refine ⟨rfl, rfl, by decide⟩

/-- C1, amended: first-write-wins holds for every truthy value: if a
known field holds a truthy (non-null, non-zero, non-empty, non-False)
value after `merge(S,E1)`, then no later extraction merge changes it. -/
theorem C1_first_write_wins (f : String → Option Value)
    (e1 e2 : List (String × Option Value)) (k : String) (v : Value)
    (_hk : k ∈ knownFieldKeys)
    (h1 : mergeFields f e1 k = some v) (ht : truthy v = true) :
    mergeFields (mergeFields f e1) e2 k = some v :=
  mergeFields_keeps_truthy e2 (mergeFields f e1) k v h1 ht

def wE1 : List (String × Option Value) :=
  [("bairro", some (Value.str "Campeche"))]

def wE2 : List (String × Option Value) :=
  [("bairro", some (Value.str "Centro"))]

theorem C1_first_write_wins_witness :
    mergeFields (mergeFields emptyFields wE1) wE2 "bairro"
      = some (Value.str "Campeche") :=
  C1_first_write_wins emptyFields wE1 wE2 "bairro" (Value.str "Campeche")
    (by decide) rfl rfl

/-! ### Claim C7 — unknown-key tolerance of the merger -/

def unknownKeyE : List (String × Option Value) :=
  [("foo", some (Value.str "bar"))]

/-- C7, counterexample: merging a map holding only the unknown key "foo"
writes that key into the state: the merge loop iterates over every key
of the extracted dictionary and never restricts to the known field
keys, so the state does get an entry for the unknown key. -/
theorem C7_counterexample :
    "foo" ∉ knownFieldKeys ∧
    mergeFields emptyFields unknownKeyE "foo" = some (Value.str "bar") ∧
    mergeFields emptyFields unknownKeyE "foo" ≠ none := by
  refine ⟨by decide, rfl, by decide⟩

/-- C7, amended: unknown keys are not ignored — an unknown key carrying
a truthy value is merged into the state under the same first-write-wins
policy as known keys; and any key (in particular each known field) that
does not occur in the extracted map keeps its previous value. -/
theorem C7_unknown_keys_merged :
    (∀ (f : String → Option Value) (k : String) (v : Value)
        (e1 e2 : List (String × Option Value)),
        k ∉ knownFieldKeys → (∀ kv ∈ e1, kv.1 ≠ k) →
        truthyOpt (f k) = false → truthy v = true →
        mergeFields f (e1 ++ (k, some v) :: e2) k = some v) ∧
    (∀ (f : String → Option Value) (e : List (String × Option Value))
        (k1 : String), (∀ kv ∈ e, kv.1 ≠ k1) → mergeFields f e k1 = f k1) := by
  constructor
  · intro f k v e1 e2 _ he1 hf ht
    rw [mergeFields_append]
    have hg : mergeFields f e1 k = f k := mergeFields_of_not_mem e1 f k he1
    have hw : mergeOne (mergeFields f e1) (k, some v) k = some v := by
      unfold mergeOne updateFn
      simp [hg, hf]
    exact mergeFields_keeps_truthy e2 _ k v hw ht
  · intro f e k1 he
    exact mergeFields_of_not_mem e f k1 he

def wUnknownPre : List (String × Option Value) :=
  [("bairro", some (Value.str "Campeche"))]

theorem C7_unknown_keys_merged_witness :
    mergeFields emptyFields (wUnknownPre ++ ("foo", some (Value.num 7)) :: [])
      "foo" = some (Value.num 7) :=
  C7_unknown_keys_merged.1 emptyFields "foo" (Value.num 7) wUnknownPre []
    (by decide) (by decide) rfl (by decide)

/-! ### Claim C4 — fuzzy match exactness -/

/-- C4, evaluation of `validate_bairro` on the three claimed inputs.
"campeche" and "rio tavares" behave as claimed, but "jurere" does NOT
match: `token_sort_ratio("jurere", "Jurerê Internacional")` is 40
(force_ascii discards the "ê" and the processed allow-list entry
"internacional jurer" shares only the 5-character subsequence "jurer"
with the query), far below the 80 threshold, so the validator rejects it
— contradicting both the claim and the function's own docstring examples
(geographic_validator.py lines 50-57). -/
theorem C4_fuzzy_match_eval :
    validateBairro "campeche" = (true, some "Campeche") ∧
    validateBairro "rio tavares" = (false, none) ∧
    validateBairro "jurere" = (false, none) ∧
    tokenSortScore "jurere".data "Jurerê Internacional".data = 40 := by
  exact ⟨rfl, rfl, rfl, rfl⟩

/-! ### Claim C5 — numeric normalization test vector -/

/-- C5, evaluation of `extract_numeric_value` on the claimed vectors
("R$ 1.000.000,50" is `mkRat 2000001 2` = 1000000.50).  Three vectors
behave as claimed, but `parse("1 milhão")` is 1000.0, not 1000000.0: the
million branch's regex `([\d.,]+)\s*milhõ` cannot match the singular
"milhão" (the pattern ends in "õ" where the word has "ã"), so the input
falls through to the thousand branch, whose `([\d.,]+)\s*mil` matches
the prefix "mil" of "milhão" and multiplies by 1,000.  The plural
"2 milhões" does match and is scaled by 1,000,000, showing the regex is
a slip, not a different design. -/
theorem C5_numeric_vectors_eval :
    extractNumericValue "850 mil" = .ok (some 850000) ∧
    extractNumericValue "R$ 1.000.000,50" = .ok (some (mkRat 2000001 2)) ∧
    extractNumericValue "abc" = .ok none ∧
    extractNumericValue "1 milhão" = .ok (some 1000) ∧
    extractNumericValue "2 milhões" = .ok (some 2000000) := by
  refine ⟨by decide, by decide, rfl, by decide, by decide⟩

/-! ### Claim C6 — numeric parser totality -/

/-- C6: the parser is NOT total.  In the thousand and million branches
the `float()` conversion is not wrapped in try/except, so an input whose
numeral run keeps several separators raises `ValueError` ("1,2,3"
becomes "1.2.3").  The final branch is guarded and returns `None` for
the same run, confirming the missing guard is a slip. -/
theorem C6_parser_raises :
    extractNumericValue "1,2,3 mil" = .error "ValueError" ∧
    extractNumericValue "1,2,3" = .ok none := by
  exact ⟨rfl, rfl⟩

/-! ### Claim C2 — disqualification short-circuit -/

/-- A state whose data fields hold only `bairro = "Rio Tavares"`. -/
def rioDict : String → Option Value :=
  updateFn emptyFields "bairro" (Value.str "Rio Tavares")

/-- C2: from a state whose fields contain only `bairro = "Rio Tavares"`
(all other fields null), one orchestrator pass (with any generated reply
and an empty extraction result) reaches the terminal output: the run
status is COMPLETE, the emitted record has `lead_qualified = False` and
`next_step = "disqualified"`, even though `land_size_m2`,
`asking_price` and `legal_status` are still null. -/
theorem C2_disqualification_short_circuit
    (msgs : List Message) (n : Nat) (reply : String) :
    ∃ s1 r, graphInvoke reply [] ⟨msgs, n, rioDict⟩ = .ok (s1, some r) ∧
      r.lead_qualified = Value.bool false ∧
      r.next_step = NextStep.disqualified ∧
      statusOf s1 = "complete" ∧
      s1.dict "next_step" = some (Value.str "disqualified") ∧
      s1.dict "land_size_m2" = none ∧
      s1.dict "asking_price" = none ∧
      s1.dict "legal_status" = none := by
  exact ⟨_, _, rfl, rfl, rfl, rfl, rfl, rfl, rfl, rfl⟩

/-! ### Claim C3 — idempotent termination / terminal re-entry -/

theorem validateNode_shape (s s3 : QState) (h : validateNode s = .ok s3) :
    s3.messages = s.messages ∧ s3.turn_count = s.turn_count := by
  unfold validateNode at h
  repeat' split at h
  all_goals first
    | exact Except.noConfusion h
    | (injection h with h1; subst h1; exact ⟨rfl, rfl⟩)

theorem generateOutputNode_shape (s s4 : QState) (r : LeadQualification)
    (h : generateOutputNode s = .ok (s4, r)) :
    s4.messages.length = s.messages.length + 1 ∧
    s4.turn_count = s.turn_count := by
  unfold generateOutputNode at h
  repeat' split at h
  all_goals first
    | exact Except.noConfusion h
    | (injection h with h1; injection h1 with h2 h3; subst h2; subst h3;
       exact ⟨by simp, rfl⟩)

def completeStateEx : QState :=
  ⟨[Message.user "oi"], 1,
   updateFn emptyFields "qualification_complete" (Value.bool true)⟩

/-- C3, counterexample: `QualifierAgent.run` has no terminal-re-entry
guard.  Invoking the graph on a state already reported COMPLETE runs the
whole per-turn pipeline again: the conversation node unconditionally
appends a new agent turn, so the transcript grows from 1 to 2 turns —
re-entry is not a no-op. -/
theorem C3_counterexample :
    statusOf completeStateEx = "complete" ∧
    (graphInvoke "ok" [] completeStateEx).map (fun p => p.1.messages.length)
      = .ok 2 ∧
    completeStateEx.messages.length = 1 := by
  exact ⟨rfl, rfl, rfl⟩

/-- C3, amended: the orchestrator re-runs the pipeline on every
invocation, terminal state or not: whenever an invocation returns
(rather than raising), at least one agent turn has been appended to the
transcript and `turn_count` is incremented — there is no no-op path and
no same-record guarantee. -/
theorem graphFinalize_shape (s3 s1 : QState) (r : Option LeadQualification)
    (h : (match generateOutputNode s3 with
          | .error e => (Except.error e : Except String (QState × Option LeadQualification))
          | .ok (s4, q) => Except.ok (s4, some q)) = Except.ok (s1, r)) :
    s1.messages.length = s3.messages.length + 1 ∧
    s1.turn_count = s3.turn_count := by
  cases ho : generateOutputNode s3 with
  | error e => rw [ho] at h; exact Except.noConfusion h
  | ok p =>
      obtain ⟨s4, r4⟩ := p
      rw [ho] at h
      dsimp only at h
      injection h with hp
      injection hp with hps _
      subst hps
      exact generateOutputNode_shape s3 _ r4 ho

theorem C3_reentry_not_noop (reply : String)
    (data : List (String × Option Value)) (s s1 : QState)
    (r : Option LeadQualification)
    (h : graphInvoke reply data s = .ok (s1, r)) :
    s.messages.length + 1 ≤ s1.messages.length ∧
    s1.turn_count = s.turn_count + 1 := by
  unfold graphInvoke at h
  cases hv : validateNode (extractNode data (conversationNode reply s)) with
  | error e => rw [hv] at h; exact Except.noConfusion h
  | ok s3 =>
      rw [hv] at h
      dsimp only at h
      obtain ⟨hm3, ht3⟩ :=
        validateNode_shape (extractNode data (conversationNode reply s)) s3 hv
      have hlen3 : s3.messages = s.messages ++ [Message.agent reply] := hm3
      have htc3 : s3.turn_count = s.turn_count + 1 := ht3
      cases hr : routeAfterValidation s3 with
      | awaitTurn =>
          rw [hr] at h
          dsimp only at h
          injection h with hp
          injection hp with hps _
          subst hps
          refine ⟨?_, htc3⟩
          rw [hlen3]
          simp
      | output =>
          rw [hr] at h
          dsimp only at h
          obtain ⟨ho1, ho2⟩ := graphFinalize_shape s3 s1 r h
          refine ⟨?_, by rw [ho2, htc3]⟩
          rw [ho1, hlen3]
          simp
      | disqualified =>
          rw [hr] at h
          dsimp only at h
          obtain ⟨ho1, ho2⟩ := graphFinalize_shape s3 s1 r h
          refine ⟨?_, by rw [ho2, htc3]⟩
          rw [ho1, hlen3]
          simp

def emptyState : QState := ⟨[], 0, emptyFields⟩

def reentryStep : QState := ⟨[Message.agent "hi"], 1, emptyFields⟩

theorem C3_reentry_not_noop_witness :
    emptyState.messages.length + 1 ≤ reentryStep.messages.length ∧
    reentryStep.turn_count = emptyState.turn_count + 1 :=
  C3_reentry_not_noop "hi" [] emptyState reentryStep none rfl

/-! ### Claim C8 — legal-status normalization at assembly -/

/-- C8, counterexample: "Não possui escritura" ("does not have a title
deed") contains the negative keyword "não", so it belongs to the claim's
"no/without title" family — yet the assembler maps it to the POSITIVE
canonical phrase, because the affirmative family is checked first and
the text also contains the affirmative keyword "possui". -/
theorem C8_counterexample :
    hasKeyword negKeywords "Não possui escritura" = true ∧
    normalizeLegalStatus "Não possui escritura" = "Sim, possui escritura pública" ∧
    "Sim, possui escritura pública" ≠ "Não possui escritura" := by
  refine ⟨rfl, rfl, by decide⟩

/-- The amended normalization contract, following the claim's wording
with the two corrections the code forces: the affirmative family takes
precedence when a text contains keywords of both families, and an empty
(or missing) text maps to the "not informed" phrase; only non-empty text
outside both families passes through verbatim. -/
def legalStatusSpec (o : Option String) : String :=
  match o with
  | none => "Não informado"
  | some s =>
      if s.isEmpty then "Não informado"
      else if hasKeyword affirmKeywords s then "Sim, possui escritura pública"
      else if hasKeyword negKeywords s then "Não possui escritura"
      else s

/-- C8, amended: the assembler's normalization — which reads the state
value with default `""` — agrees with the amended contract on every
optional legal-status text. -/
theorem C8_legal_status_amended (o : Option String) :
    normalizeLegalStatus (o.getD "") = legalStatusSpec o := by
  cases o with
  | none => rfl
  | some s => rfl

/-! ### Claim C9 — fallback substitution boundary -/

/-- C9: for every disqualified state whose `land_size_m2` and
`asking_price` are null, the emitted record carries the positive
sentinel 0.1 (`mkRat 1 10`) for both — never null and never zero —
and is a disqualification record, while the state's own fields still
hold null after finalization: the fallbacks are applied only at the
output boundary and never written back into the state. -/
theorem C9_fallback_boundary (s s4 : QState) (r : LeadQualification)
    (hl : s.dict "land_size_m2" = none) (hp : s.dict "asking_price" = none)
    (hq : s.dict "is_qualified" = some (Value.bool false))
    (h : generateOutputNode s = .ok (s4, r)) :
    r.land_size_m2 = Value.num (mkRat 1 10) ∧
    r.asking_price = Value.num (mkRat 1 10) ∧
    (0 : ℚ) < mkRat 1 10 ∧
    r.next_step = NextStep.disqualified ∧
    s4.dict "land_size_m2" = none ∧
    s4.dict "asking_price" = none := by
  unfold generateOutputNode at h
  repeat' split at h
  all_goals first
    | exact Except.noConfusion h
    | (injection h with h1; injection h1 with h2 h3; subst h2; subst h3;
       refine ⟨?_, ?_, by decide, ?_, ?_, ?_⟩ <;>
         simp [pyOr, hl, hp, hq, updateFn, truthy])

/-- The concrete disqualified state used to witness C9 and C10:
`bairro = "Rio Tavares"`, `is_qualified = False`, everything else null. -/
def disqStateEx : QState :=
  ⟨[], 1, updateFn (updateFn emptyFields "bairro" (Value.str "Rio Tavares"))
      "is_qualified" (Value.bool false)⟩

/-- The record `_generate_output_node` emits from `disqStateEx`. -/
def disqRecordEx : LeadQualification :=
  { lead_qualified := Value.bool false
    owner_type := OwnerType.corretor
    bairro := Value.str "Rio Tavares"
    cidade := Value.str "Florianópolis"
    land_size_m2 := Value.num (mkRat 1 10)
    asking_price := Value.num (mkRat 1 10)
    legal_status := "Não informado"
    obs := Value.str "Nenhuma observação adicional"
    next_step := NextStep.disqualified }

/-- The state `_generate_output_node` returns from `disqStateEx`. -/
def disqOutStateEx : QState :=
  ⟨[Message.agent (renderRecord disqRecordEx)], 1,
   updateFn (updateFn disqStateEx.dict "qualification_complete" (Value.bool true))
     "next_step" (Value.str "disqualified")⟩

theorem C9_fallback_boundary_witness :
    disqRecordEx.land_size_m2 = Value.num (mkRat 1 10) ∧
    disqRecordEx.asking_price = Value.num (mkRat 1 10) ∧
    (0 : ℚ) < mkRat 1 10 ∧
    disqRecordEx.next_step = NextStep.disqualified ∧
    disqOutStateEx.dict "land_size_m2" = none ∧
    disqOutStateEx.dict "asking_price" = none :=
  C9_fallback_boundary disqStateEx disqOutStateEx disqRecordEx rfl rfl rfl rfl

/-! ### Claim C10 — implicit owner_type fallback -/

/-- C10: whenever a state is finalized with `owner_type` never extracted
(no entry in the state), `state.get("owner_type", "corretor")` silently
supplies the default, and the emitted record's owner_type is the broker
member `corretor` — a fallback the spec's fallback table never lists. -/
theorem C10_owner_type_default (s s4 : QState) (r : LeadQualification)
    (ho : s.dict "owner_type" = none)
    (h : generateOutputNode s = .ok (s4, r)) :
    r.owner_type = OwnerType.corretor := by
  unfold generateOutputNode at h
  repeat' split at h
  all_goals first
    | exact Except.noConfusion h
    | (injection h with h1; injection h1 with h2 h3; subst h2; subst h3;
       simp_all)

theorem C10_owner_type_default_witness :
    disqRecordEx.owner_type = OwnerType.corretor :=
  C10_owner_type_default disqStateEx disqOutStateEx disqRecordEx rfl rfl

end Terra
